import Mathlib

/-!
Verification of the command-invocation bridge in `src-tauri/src/main.rs`.

The bridge exposes three operations (`export_playlist`, `get_playlists`,
`check_connection`).  Each builds an `npm` invocation with a concrete
argument vector, runs it to completion, and normalizes the outcome into a
uniform `ExportResponse` record.  We embed the argument-vector builders and
the outcome normalization as Lean functions, parametrizing each operation
over an executor `Cmd → Except String ProcessOutput` that stands for
`Command::output()` (the child process is a black box): `Except.ok` is a
process that ran to completion, `Except.error e` is a launch failure whose
display text is `e`.
-/

/-- Response record returned by every operation (`ExportResponse` in main.rs):
success flag, message text and an optional artifact path. -/
structure ExportResponse where
  success : Bool
  message : String
  file_path : Option String
deriving Repr, DecidableEq

/-- Captured output of a child process that ran to completion
(Rust `std::process::Output`): the exit code plus the lossily decoded
stdout and stderr text. -/
structure ProcessOutput where
  exitCode : Nat
  stdout : String
  stderr : String
deriving Repr, DecidableEq

/-- Rust `ExitStatus::success()`: the process exited with code zero. -/
def ProcessOutput.statusSuccess (o : ProcessOutput) : Bool :=
  o.exitCode == 0

/-- A constructed child-process invocation (Rust `std::process::Command`):
the program name and the argument vector accumulated by `args`/`arg` calls. -/
structure Cmd where
  program : String
  args : List String
deriving Repr, DecidableEq

/-- Command construction of `export_playlist` (main.rs lines 23-37):
`npm run dev --`, then either `pptx <uuid>` or `export <uuid>` with
`--json` appended only for format `"json"`, then `--host <host> --port <port>`. -/
def exportCmd (playlist_uuid export_format host : String) (port : Nat) : Cmd :=
  let port_str := toString port
  { program := "npm"
    args :=
      ["run", "dev", "--"]
        ++ (if export_format == "pptx" then
              ["pptx", playlist_uuid]
            else
              ["export", playlist_uuid]
                ++ (if export_format == "json" then ["--json"] else []))
        ++ ["--host", host, "--port", port_str] }

/-- Command construction of `get_playlists` (main.rs lines 62-64). -/
def playlistsCmd (host : String) (port : Nat) : Cmd :=
  let port_str := toString port
  { program := "npm"
    args := ["run", "dev", "--", "playlists", "--json", "--host", host, "--port", port_str] }

/-- Command construction of `check_connection` (main.rs lines 89-91). -/
def statusCmd (host : String) (port : Nat) : Cmd :=
  let port_str := toString port
  { program := "npm"
    args := ["run", "dev", "--", "status", "--host", host, "--port", port_str] }

/-- The Tauri command `export_playlist` (main.rs lines 16-56), with the
executor `run` standing for `Command::output()`. -/
def export_playlist (playlist_uuid export_format host : String) (port : Nat)
    (run : Cmd → Except String ProcessOutput) : ExportResponse :=
  match run (exportCmd playlist_uuid export_format host port) with
  | .ok output =>
      { success := output.statusSuccess
        message := if output.statusSuccess then output.stdout else output.stderr
        file_path := none }
  | .error e =>
      { success := false
        message := "Failed to run export: " ++ e
        file_path := none }

/-- The Tauri command `get_playlists` (main.rs lines 58-83). -/
def get_playlists (host : String) (port : Nat)
    (run : Cmd → Except String ProcessOutput) : ExportResponse :=
  match run (playlistsCmd host port) with
  | .ok output =>
      { success := output.statusSuccess
        message := if output.statusSuccess then output.stdout else output.stderr
        file_path := none }
  | .error e =>
      { success := false
        message := "Failed to get playlists: " ++ e
        file_path := none }

/-- The Tauri command `check_connection` (main.rs lines 85-110). -/
def check_connection (host : String) (port : Nat)
    (run : Cmd → Except String ProcessOutput) : ExportResponse :=
  match run (statusCmd host port) with
  | .ok output =>
      { success := output.statusSuccess
        message := if output.statusSuccess then output.stdout else output.stderr
        file_path := none }
  | .error e =>
      { success := false
        message := "Connection failed: " ++ e
        file_path := none }

/-! Helper lemmas: the decimal rendering of a natural number consists of
digit characters only, hence is never the flag string `"--json"`. -/

lemma digitChar_ne_dash (d : Nat) : Nat.digitChar d ≠ '-' := by
  rcases lt_or_ge d 16 with h | h
  · interval_cases d <;> decide
  · unfold Nat.digitChar
    iterate 16 rw [if_neg (by omega)]
    decide

lemma toDigitsCore_chars (b : Nat) :
    ∀ (f n : Nat) (l : List Char) (c : Char),
      c ∈ Nat.toDigitsCore b f n l → c ∈ l ∨ ∃ d, c = Nat.digitChar d := by
  intro f
  induction f with
  | zero =>
      intro n l c h
      exact Or.inl h
  | succ f ih =>
      intro n l c h
      unfold Nat.toDigitsCore at h
      dsimp only at h
      split at h
      · rcases List.mem_cons.mp h with h | h
        · exact Or.inr ⟨n % b, h⟩
        · exact Or.inl h
      · rcases ih (n / b) (Nat.digitChar (n % b) :: l) c h with h | h
        · rcases List.mem_cons.mp h with h | h
          · exact Or.inr ⟨n % b, h⟩
          · exact Or.inl h
        · exact Or.inr h

lemma natToString_ne_json_flag (n : Nat) : toString n ≠ "--json" := by
  intro h
  have hdata : Nat.toDigits 10 n = "--json".data := congrArg String.data h
  have hmem : '-' ∈ Nat.toDigits 10 n := by
    rw [hdata]
    decide
  rcases toDigitsCore_chars 10 (n + 1) n [] '-' hmem with h0 | ⟨d, hd⟩
  · exact absurd h0 (List.not_mem_nil '-')
  · exact digitChar_ne_dash d hd.symm

/-! Claim theorems. -/

/-- C1: for every operation (export, list, status), if the child process runs and
exits with code zero the Response is `success = true`, `message` = captured stdout,
`file_path = none`; if it runs and exits non-zero the Response is `success = false`,
`message` = captured stderr, `file_path = none`. -/
theorem c1_exit_status_determines_response
    (uuid fmt host1 host2 host3 : String) (port1 port2 port3 : Nat)
    (run1 run2 run3 : Cmd → Except String ProcessOutput)
    (out1 out2 out3 : ProcessOutput) :
    (run1 (exportCmd uuid fmt host1 port1) = .ok out1 →
      export_playlist uuid fmt host1 port1 run1 =
        if out1.exitCode = 0 then ⟨true, out1.stdout, none⟩
        else ⟨false, out1.stderr, none⟩) ∧
    (run2 (playlistsCmd host2 port2) = .ok out2 →
      get_playlists host2 port2 run2 =
        if out2.exitCode = 0 then ⟨true, out2.stdout, none⟩
        else ⟨false, out2.stderr, none⟩) ∧
    (run3 (statusCmd host3 port3) = .ok out3 →
      check_connection host3 port3 run3 =
        if out3.exitCode = 0 then ⟨true, out3.stdout, none⟩
        else ⟨false, out3.stderr, none⟩) := by
  refine ⟨fun h => ?_, fun h => ?_, fun h => ?_⟩
  · unfold export_playlist
    rw [h]
    by_cases hz : out1.exitCode = 0 <;>
      simp [ProcessOutput.statusSuccess, hz]
  · unfold get_playlists
    rw [h]
    by_cases hz : out2.exitCode = 0 <;>
      simp [ProcessOutput.statusSuccess, hz]
  · unfold check_connection
    rw [h]
    by_cases hz : out3.exitCode = 0 <;>
      simp [ProcessOutput.statusSuccess, hz]

theorem c1_witness :
    export_playlist "u1" "json" "localhost" 5678
        (fun _ => .ok ⟨0, "OK\n", ""⟩) = ⟨true, "OK\n", none⟩ ∧
    get_playlists "localhost" 5678
        (fun _ => .ok ⟨1, "", "not found\n"⟩) = ⟨false, "not found\n", none⟩ ∧
    check_connection "localhost" 5678
        (fun _ => .ok ⟨0, "connected", ""⟩) = ⟨true, "connected", none⟩ := by
  have h := c1_exit_status_determines_response "u1" "json" "localhost" "localhost"
    "localhost" 5678 5678 5678
    (fun _ => .ok ⟨0, "OK\n", ""⟩) (fun _ => .ok ⟨1, "", "not found\n"⟩)
    (fun _ => .ok ⟨0, "connected", ""⟩)
    ⟨0, "OK\n", ""⟩ ⟨1, "", "not found\n"⟩ ⟨0, "connected", ""⟩
  refine ⟨?_, ?_, ?_⟩
  · simpa using h.1 rfl
  · simpa using h.2.1 rfl
  · simpa using h.2.2 rfl

/-- C2: for every operation, a launch failure (the executor returns an OS error `e`)
yields a Response with `success = false`, `file_path = none`, and a non-empty
message embedding the OS error text `e`. -/
theorem c2_launch_failure_response
    (uuid fmt host1 host2 host3 e1 e2 e3 : String) (port1 port2 port3 : Nat)
    (run1 run2 run3 : Cmd → Except String ProcessOutput) :
    (run1 (exportCmd uuid fmt host1 port1) = .error e1 →
      (export_playlist uuid fmt host1 port1 run1).success = false ∧
      (export_playlist uuid fmt host1 port1 run1).file_path = none ∧
      (export_playlist uuid fmt host1 port1 run1).message ≠ "" ∧
      ∃ pre, pre ≠ "" ∧
        (export_playlist uuid fmt host1 port1 run1).message = pre ++ e1) ∧
    (run2 (playlistsCmd host2 port2) = .error e2 →
      (get_playlists host2 port2 run2).success = false ∧
      (get_playlists host2 port2 run2).file_path = none ∧
      (get_playlists host2 port2 run2).message ≠ "" ∧
      ∃ pre, pre ≠ "" ∧
        (get_playlists host2 port2 run2).message = pre ++ e2) ∧
    (run3 (statusCmd host3 port3) = .error e3 →
      (check_connection host3 port3 run3).success = false ∧
      (check_connection host3 port3 run3).file_path = none ∧
      (check_connection host3 port3 run3).message ≠ "" ∧
      ∃ pre, pre ≠ "" ∧
        (check_connection host3 port3 run3).message = pre ++ e3) := by
  refine ⟨fun h => ?_, fun h => ?_, fun h => ?_⟩
  · unfold export_playlist
    rw [h]
    refine ⟨rfl, rfl, ?_, "Failed to run export: ", by decide, rfl⟩
    intro hempty
    have := congrArg String.length hempty
    simp [String.length_append] at this
    exact absurd this.1 (by decide)
  · unfold get_playlists
    rw [h]
    refine ⟨rfl, rfl, ?_, "Failed to get playlists: ", by decide, rfl⟩
    intro hempty
    have := congrArg String.length hempty
    simp [String.length_append] at this
    exact absurd this.1 (by decide)
  · unfold check_connection
    rw [h]
    refine ⟨rfl, rfl, ?_, "Connection failed: ", by decide, rfl⟩
    intro hempty
    have := congrArg String.length hempty
    simp [String.length_append] at this
    exact absurd this.1 (by decide)

theorem c2_witness :
    (export_playlist "u1" "pptx" "localhost" 1025
        (fun _ => .error "No such file or directory (os error 2)")).success = false ∧
    (get_playlists "localhost" 1025
        (fun _ => .error "No such file or directory (os error 2)")).file_path = none ∧
    (check_connection "localhost" 1025
        (fun _ => .error "No such file or directory (os error 2)")).message ≠ "" := by
  have h := c2_launch_failure_response "u1" "pptx" "localhost" "localhost" "localhost"
    "No such file or directory (os error 2)" "No such file or directory (os error 2)"
    "No such file or directory (os error 2)" 1025 1025 1025
    (fun _ => .error "No such file or directory (os error 2)")
    (fun _ => .error "No such file or directory (os error 2)")
    (fun _ => .error "No such file or directory (os error 2)")
  exact ⟨(h.1 rfl).1, (h.2.1 rfl).2.1, (h.2.2 rfl).2.2.1⟩

/-- C3 as stated is false: the quantification ranges over every targetId, and with
`targetId = "--json"` the string `"--json"` does appear in the built vector (as the
uuid argument the caller supplied, not as a flag the builder appended). -/
theorem c3_counterexample :
    ¬ (∀ (uuid host : String) (port : Nat),
        (∃ rest, (exportCmd uuid "pptx" host port).args
          = ["run", "dev", "--", "pptx", uuid] ++ rest) ∧
        "--json" ∉ (exportCmd uuid "pptx" host port).args) := by
  intro hclaim
  exact (hclaim "--json" "localhost" 1011).2 (by decide)

/-- C3 amended: with format `"pptx"` the built vector carries the pair
`["pptx", targetId]` immediately after the fixed `npm run dev --` lead, and the
builder itself never appends `"--json"`: whenever neither targetId nor host is the
literal string `"--json"`, the flag appears nowhere in the vector (the port string,
being all decimal digits, can never collide with it). -/
theorem c3_pptx_args (uuid host : String) (port : Nat)
    (h1 : uuid ≠ "--json") (h2 : host ≠ "--json") :
    (∃ rest, (exportCmd uuid "pptx" host port).args
      = ["run", "dev", "--", "pptx", uuid] ++ rest) ∧
    "--json" ∉ (exportCmd uuid "pptx" host port).args := by
  constructor
  · exact ⟨["--host", host, "--port", toString port], by simp [exportCmd]⟩
  · intro hmem
    have hargs : (exportCmd uuid "pptx" host port).args
        = ["run", "dev", "--", "pptx", uuid, "--host", host, "--port",
            toString port] := by
      simp [exportCmd]
    rw [hargs] at hmem
    simp only [List.mem_cons, List.not_mem_nil, or_false] at hmem
    rcases hmem with h | h | h | h | h | h | h | h | h
    · exact absurd h (by decide)
    · exact absurd h (by decide)
    · exact absurd h (by decide)
    · exact absurd h (by decide)
    · exact h1 h.symm
    · exact absurd h (by decide)
    · exact h2 h.symm
    · exact absurd h (by decide)
    · exact natToString_ne_json_flag port h.symm

theorem c3_witness :
    ("u1" : String) ≠ "--json" ∧ ("localhost" : String) ≠ "--json" ∧
    ((∃ rest, (exportCmd "u1" "pptx" "localhost" 1011).args
        = ["run", "dev", "--", "pptx", "u1"] ++ rest) ∧
      "--json" ∉ (exportCmd "u1" "pptx" "localhost" 1011).args) :=
  ⟨by decide, by decide,
    c3_pptx_args "u1" "localhost" 1011 (by decide) (by decide)⟩

/-- C4: with format `"json"` the built vector contains `"export"` immediately
followed by targetId, and later the flag `"--json"`. -/
theorem c4_json_format_args (uuid host : String) (port : Nat) :
    ∃ pre mid post, (exportCmd uuid "json" host port).args
      = pre ++ "export" :: uuid :: (mid ++ "--json" :: post) := by
  refine ⟨["run", "dev", "--"], [], ["--host", host, "--port", toString port], ?_⟩
  simp [exportCmd]

/-- C5: for every format other than `"pptx"` and `"json"` (the empty string
included), the built vector is exactly the `"json"` vector with the single
`"--json"` flag removed; unrecognized formats are never rejected, they silently
take the default branch. -/
theorem c5_default_format_args (uuid fmt host : String) (port : Nat)
    (h1 : fmt ≠ "pptx") (h2 : fmt ≠ "json") :
    ∃ pre post,
      (exportCmd uuid "json" host port).args = pre ++ "--json" :: post ∧
      (exportCmd uuid fmt host port).args = pre ++ post := by
  refine ⟨["run", "dev", "--", "export", uuid],
    ["--host", host, "--port", toString port], ?_, ?_⟩
  · simp [exportCmd]
  · simp [exportCmd, h1, h2]

theorem c5_witness :
    ("" : String) ≠ "pptx" ∧ ("" : String) ≠ "json" ∧
    ∃ pre post,
      (exportCmd "u1" "json" "localhost" 8080).args = pre ++ "--json" :: post ∧
      (exportCmd "u1" "" "localhost" 8080).args = pre ++ post :=
  ⟨by decide, by decide,
    c5_default_format_args "u1" "" "localhost" 8080 (by decide) (by decide)⟩

/-- C6: whatever format branch is taken, the export vector ends with the four
elements `"--host"`, host, `"--port"`, and the decimal rendering of port. -/
theorem c6_export_args_end_host_port (uuid fmt host : String) (port : Nat) :
    ∃ pre, (exportCmd uuid fmt host port).args
      = pre ++ ["--host", host, "--port", toString port] := by
  refine ⟨["run", "dev", "--"]
    ++ (if fmt == "pptx" then ["pptx", uuid]
        else ["export", uuid] ++ (if fmt == "json" then ["--json"] else [])), ?_⟩
  simp [exportCmd]

/-- C7: the list operation builds exactly
`npm run dev -- playlists --json --host <host> --port <port>` and the status
operation builds exactly `npm run dev -- status --host <host> --port <port>`;
both are functions of host and port alone. -/
theorem c7_list_status_fixed_args (host1 host2 : String) (port1 port2 : Nat) :
    (playlistsCmd host1 port1).args
      = ["run", "dev", "--", "playlists", "--json", "--host", host1, "--port",
          toString port1] ∧
    (statusCmd host2 port2).args
      = ["run", "dev", "--", "status", "--host", host2, "--port", toString port2] :=
  ⟨rfl, rfl⟩

/-- C8: every Response produced by every operation, under every outcome (launch
failure, non-zero exit, zero exit), has `file_path = none`. -/
theorem c8_file_path_always_none
    (uuid fmt host1 host2 host3 : String) (port1 port2 port3 : Nat)
    (run1 run2 run3 : Cmd → Except String ProcessOutput) :
    (export_playlist uuid fmt host1 port1 run1).file_path = none ∧
    (get_playlists host2 port2 run2).file_path = none ∧
    (check_connection host3 port3 run3).file_path = none := by
  unfold export_playlist get_playlists check_connection
  refine ⟨?_, ?_, ?_⟩
  · cases run1 (exportCmd uuid fmt host1 port1) <;> rfl
  · cases run2 (playlistsCmd host2 port2) <;> rfl
  · cases run3 (statusCmd host3 port3) <;> rfl

/-- C9: all three operations invoke the program `"npm"` and every built argument
vector starts with the fixed lead `["run", "dev", "--"]`. -/
theorem c9_npm_program_and_lead_args
    (uuid fmt host1 host2 host3 : String) (port1 port2 port3 : Nat) :
    ((exportCmd uuid fmt host1 port1).program = "npm" ∧
      ∃ rest, (exportCmd uuid fmt host1 port1).args = ["run", "dev", "--"] ++ rest) ∧
    ((playlistsCmd host2 port2).program = "npm" ∧
      ∃ rest, (playlistsCmd host2 port2).args = ["run", "dev", "--"] ++ rest) ∧
    ((statusCmd host3 port3).program = "npm" ∧
      ∃ rest, (statusCmd host3 port3).args = ["run", "dev", "--"] ++ rest) := by
  refine ⟨⟨rfl, ?_⟩, ⟨rfl, ⟨_, rfl⟩⟩, ⟨rfl, ⟨_, rfl⟩⟩⟩
  refine ⟨(if fmt == "pptx" then ["pptx", uuid]
      else ["export", uuid] ++ (if fmt == "json" then ["--json"] else []))
    ++ ["--host", host1, "--port", toString port1], ?_⟩
  simp [exportCmd]

/-- C10: the launch-failure diagnostic is operation-specific: export prepends
"Failed to run export: ", list prepends "Failed to get playlists: ", and status
prepends "Connection failed: " to the OS error text. -/
theorem c10_launch_failure_messages
    (uuid fmt host1 host2 host3 e1 e2 e3 : String) (port1 port2 port3 : Nat)
    (run1 run2 run3 : Cmd → Except String ProcessOutput) :
    (run1 (exportCmd uuid fmt host1 port1) = .error e1 →
      (export_playlist uuid fmt host1 port1 run1).message
        = "Failed to run export: " ++ e1) ∧
    (run2 (playlistsCmd host2 port2) = .error e2 →
      (get_playlists host2 port2 run2).message
        = "Failed to get playlists: " ++ e2) ∧
    (run3 (statusCmd host3 port3) = .error e3 →
      (check_connection host3 port3 run3).message
        = "Connection failed: " ++ e3) := by
  refine ⟨fun h => ?_, fun h => ?_, fun h => ?_⟩
  · unfold export_playlist
    rw [h]
  · unfold get_playlists
    rw [h]
  · unfold check_connection
    rw [h]

theorem c10_witness :
    (export_playlist "u1" "" "localhost" 1 (fun _ => .error "os error 2")).message
      = "Failed to run export: " ++ "os error 2" ∧
    (get_playlists "localhost" 1 (fun _ => .error "os error 2")).message
      = "Failed to get playlists: " ++ "os error 2" ∧
    (check_connection "localhost" 1 (fun _ => .error "os error 2")).message
      = "Connection failed: " ++ "os error 2" := by
  have h := c10_launch_failure_messages "u1" "" "localhost" "localhost" "localhost"
    "os error 2" "os error 2" "os error 2" 1 1 1
    (fun _ => .error "os error 2") (fun _ => .error "os error 2")
    (fun _ => .error "os error 2")
  exact ⟨h.1 rfl, h.2.1 rfl, h.2.2 rfl⟩
